import Mathlib

/-!
# AutoDoc: the `deref.js` command-line script

A shallow embedding of `src/node_js/deref.js`.  The script is glue around its
collaborators (`fs.readFile`, `JSON.parse`, `yaml.load`,
`dereference`, `stringify`); they are the fields of `Env`.  A run of the script
is the list of effects it performs, in order, together with the exit code of
the process.
-/

namespace AutoDoc

/-! ## Collaborators and observable effects -/

/-- The object `await dereference(specification)` resolves to.  The script
destructures its `schema` property; `rest` stands for every other property the
object carries. -/
structure DerefResult (Val Rest : Type) where
  schema : Val
  rest : Rest

/-- The imports of `deref.js`.  `Val` is the type of parsed documents and
schemas, `Err` the type of thrown values and rejection reasons, `Rest` the
properties of a dereference result other than `schema`.
* `readFile specPath` is `await fs.readFile(specPath, 'utf-8')`;
* `jsonParse raw` is `JSON.parse(raw)`;
* `yamlLoad raw` is `yaml.load(raw)`;
* `dereference specification` is `await dereference(specification)`;
* `stringify schema space` is `stringify(schema, null, space)`. -/
structure Env (Val Rest Err : Type) where
  readFile : String → Except Err String
  jsonParse : String → Except Err Val
  yamlLoad : String → Except Err Val
  dereference : Val → Except Err (DerefResult Val Rest)
  stringify : Val → Nat → String

/-- One effect of a run: a call of a collaborator, a write to one of the two
output streams, or the call of `process.exit`. -/
inductive Event (Val Err : Type) where
  | readFile (specPath : String)
  | jsonParse (raw : String)
  | yamlLoad (raw : String)
  | dereference (specification : Val)
  | stringify (schema : Val) (space : Nat)
  | consoleLog (text : String)
  | consoleError (err : Err)
  | processExit (code : Nat)

/-- A finished run: the effects in the order they happened and the exit code
of the process. -/
structure Outcome (Val Err : Type) where
  trace : List (Event Val Err)
  exitCode : Nat

variable {Val Rest Err : Type}

/-- The text an event puts on standard output (`console.log`). -/
def Event.stdoutItem : Event Val Err → Option String
  | .consoleLog text => some text
  | _ => none

/-- The value an event puts on standard error (`console.error`). -/
def Event.stderrItem : Event Val Err → Option Err
  | .consoleError err => some err
  | _ => none

/-- The path an event reads from the file system. -/
def Event.readPath : Event Val Err → Option String
  | .readFile specPath => some specPath
  | _ => none

/-- The text an event hands to the YAML parser. -/
def Event.yamlInput : Event Val Err → Option String
  | .yamlLoad raw => some raw
  | _ => none

/-- Everything written to standard output, in order. -/
def Outcome.stdout (o : Outcome Val Err) : List String :=
  o.trace.filterMap Event.stdoutItem

/-- Everything written to standard error, in order. -/
def Outcome.stderr (o : Outcome Val Err) : List Err :=
  o.trace.filterMap Event.stderrItem

/-- The paths read from the file system, in order. -/
def Outcome.reads (o : Outcome Val Err) : List String :=
  o.trace.filterMap Event.readPath

/-- The texts handed to the YAML parser, in order. -/
def Outcome.yamlInputs (o : Outcome Val Err) : List String :=
  o.trace.filterMap Event.yamlInput

/-! ## The script -/

/-- Lines 14-19: `try { specification = JSON.parse(raw) } catch
{ specification = yaml.load(raw) }`.  The error of `JSON.parse` is dropped by
the binding-less `catch`; an error of `yaml.load` propagates. -/
def parseSpecification (env : Env Val Rest Err) (raw : String) :
    List (Event Val Err) × Except Err Val :=
  match env.jsonParse raw with
  | .ok specification => ([.jsonParse raw], .ok specification)
  | .error _ => ([.jsonParse raw, .yamlLoad raw], env.yamlLoad raw)

/-- Lines 21-23, the part of the `try` block after parsing:
`const { schema } = await dereference(specification);`
`console.log(stringify(schema, null, 2));`. -/
def dereferenceAndPrint (env : Env Val Rest Err) (specification : Val) :
    List (Event Val Err) × Except Err Unit :=
  match env.dereference specification with
  | .error err => ([.dereference specification], .error err)
  | .ok result =>
    let schema := result.schema
    ([.dereference specification, .stringify schema 2,
      .consoleLog (env.stringify schema 2)], .ok ())

/-- Lines 12-23, the body of the outer `try`: the effects performed and either
normal completion or the value thrown. -/
def tryBlock (env : Env Val Rest Err) (specPath : String) :
    List (Event Val Err) × Except Err Unit :=
  match env.readFile specPath with
  | .error err => ([.readFile specPath], .error err)
  | .ok raw =>
    match parseSpecification env raw with
    | (parsing, .error err) => (.readFile specPath :: parsing, .error err)
    | (parsing, .ok specification) =>
      match dereferenceAndPrint env specification with
      | (printing, result) => (.readFile specPath :: (parsing ++ printing), result)

/-- Lines 6-27 on the argument list `args = process.argv.slice(2)`: the guard
`if (args.length === 0) process.exit(1)`, then `specPath = args[0]` and the
`try`/`catch`, whose handler is `console.error(err); process.exit(1)`.  A run
whose `try` block completes ends with exit code `0`. -/
def run (env : Env Val Rest Err) (args : List String) : Outcome Val Err :=
  match args with
  | [] => ⟨[.processExit 1], 1⟩
  | specPath :: _ =>
    match tryBlock env specPath with
    | (effects, .ok ()) => ⟨effects, 0⟩
    | (effects, .error err) => ⟨effects ++ [.consoleError err, .processExit 1], 1⟩

/-- The whole script on `process.argv` (interpreter, script path, then the
command-line arguments). -/
def main (env : Env Val Rest Err) (argv : List String) : Outcome Val Err :=
  run env (argv.drop 2)

/-- The same collaborators with another dereference call. -/
def Env.withDereference (env : Env Val Rest Err)
    (dereference2 : Val → Except Err (DerefResult Val Rest)) : Env Val Rest Err :=
  { env with dereference := dereference2 }

/-! ## The data model of the specification (section 3) -/

/-- Modelled from the spec: a Scalar of the Document Tree (section 3):
string, number, bool or null.  The repository has no tree type of its own. -/
inductive Scalar where
  | string (s : String)
  | number (n : Int)
  | bool (b : Bool)
  | null

/-- Modelled from the spec: one step of a Pointer Path (section 3): a Mapping
key or a Sequence index. -/
inductive Step where
  | key (k : String)
  | index (i : Nat)
  deriving DecidableEq

/-- Modelled from the spec: a Pointer Path (section 3), the ordered sequence of
steps from the document root; two paths are equal iff their step sequences
are. -/
abbrev PointerPath := List Step

/-- Modelled from the spec: a Node of a tree (section 3): Scalar, Sequence,
Mapping (an ordered list of key and Node pairs), or what stands at a pointer
position, `Link`, which in a Document Tree is a `Reference`. -/
inductive Tree (Link : Type) where
  | scalar (value : Scalar)
  | sequence (items : List (Tree Link))
  | mapping (entries : List (String × Tree Link))
  | link (l : Link)

/-- Modelled from the spec: a Reference node (section 3), a pointer to another
node of the same document. -/
structure Reference where
  target : PointerPath

/-- Modelled from the spec: the Document Tree (section 3). -/
abbrev DocumentTree := Tree Reference

/-- The child of a node one step down, if there is one. -/
def Tree.child {Link : Type} : Tree Link → Step → Option (Tree Link)
  | .mapping entries, .key k => entries.lookup k
  | .sequence items, .index i => items.get? i
  | _, _ => none

/-- Modelled from the spec: looking a Pointer Path up "by walking the step
sequence" from a node (section 4.1, step 2); `none` when the path does not
exist. -/
def Tree.lookup {Link : Type} : Tree Link → PointerPath → Option (Tree Link)
  | node, [] => some node
  | node, step :: steps =>
    match node.child step with
    | none => none
    | some next => next.lookup steps

mutual
/-- The targets of the links of a tree, in document order. -/
def Tree.links {Link : Type} : Tree Link → List Link
  | .scalar _ => []
  | .sequence items => Tree.linksOfItems items
  | .mapping entries => Tree.linksOfEntries entries
  | .link l => [l]
/-- The links below the items of a Sequence. -/
def Tree.linksOfItems {Link : Type} : List (Tree Link) → List Link
  | [] => []
  | item :: items => item.links ++ Tree.linksOfItems items
/-- The links below the entries of a Mapping. -/
def Tree.linksOfEntries {Link : Type} : List (String × Tree Link) → List Link
  | [] => []
  | (_, value) :: entries => value.links ++ Tree.linksOfEntries entries
end

/-- A document has a dangling Reference to `target`: some Reference of the
document points to `target`, and `target` does not exist in the document. -/
def DocumentTree.dangling (root : DocumentTree) (target : PointerPath) : Bool :=
  (root.links.map Reference.target).contains target && (root.lookup target).isNone

/-! ## The JSON text of a tree -/

/-- The JSON-style text of a Scalar. -/
def Scalar.text : Scalar → String
  | .string s => "\"" ++ s ++ "\""
  | .number n => toString n
  | .bool true => "true"
  | .bool false => "false"
  | .null => "null"

/-- The blanks in front of a line `depth` levels deep. -/
def indentation (space depth : Nat) : String :=
  String.mk (List.replicate (space * depth) ' ')

/-- The children of a Sequence or Mapping between their brackets, one child a
line and one level deeper than the brackets; no line at all without children. -/
def enclose (opening closing : String) (space depth : Nat) (children : List String) :
    String :=
  match children with
  | [] => opening ++ closing
  | _ :: _ =>
    opening ++ "\n"
      ++ ",\n".intercalate (children.map fun child => indentation space (depth + 1) ++ child)
      ++ "\n" ++ indentation space depth ++ closing

mutual
/-- The JSON text of a tree `depth` levels deep with `space` blanks a level,
laid out as `JSON.stringify(value, null, space)` lays out arrays and objects;
`linkText` gives the text of a link. -/
def Tree.render {Link : Type} (linkText : Nat → Link → String) (space : Nat) :
    Nat → Tree Link → String
  | _, .scalar value => value.text
  | depth, .sequence items =>
    enclose "[" "]" space depth (Tree.renderItems linkText space (depth + 1) items)
  | depth, .mapping entries =>
    enclose "\x7b" "\x7d" space depth (Tree.renderEntries linkText space (depth + 1) entries)
  | depth, .link l => linkText depth l
/-- The texts of the items of a Sequence. -/
def Tree.renderItems {Link : Type} (linkText : Nat → Link → String) (space : Nat) :
    Nat → List (Tree Link) → List String
  | _, [] => []
  | depth, item :: items =>
    item.render linkText space depth :: Tree.renderItems linkText space depth items
/-- The texts of the entries of a Mapping, each behind its key. -/
def Tree.renderEntries {Link : Type} (linkText : Nat → Link → String) (space : Nat) :
    Nat → List (String × Tree Link) → List String
  | _, [] => []
  | depth, (key, value) :: entries =>
    ("\"" ++ key ++ "\": " ++ value.render linkText space depth)
      :: Tree.renderEntries linkText space depth entries
end

/-! ## Concrete environments -/

/-- Modelled from the spec: the error kinds of section 7; the script itself
treats a thrown value as opaque. -/
inductive ToolError where
  | unreadable (specPath : String)
  | malformedInput (parser : String)
  | unresolvedReference (path : PointerPath)
  deriving DecidableEq

/-- The text of a step inside a pointer string. -/
def Step.text : Step → String
  | .key k => k
  | .index i => toString i

/-- The pointer string of a path, `#/a/b`. -/
def pointerText (path : PointerPath) : String :=
  "#" ++ String.join (path.map fun step => "/" ++ step.text)

/-- The JSON text of a Document Tree; a Reference is the object with the one
key `$ref`. -/
def DocumentTree.text (space : Nat) (root : DocumentTree) : String :=
  root.render
    (fun depth reference =>
      enclose "\x7b" "\x7d" space depth ["\"$ref\": \"" ++ pointerText reference.target ++ "\""])
    space 0

/-- File content: the first scenario of section 8 as JSON. -/
def scenarioJson : String :=
  "\x7b\"a\": \x7b\"$ref\": \"#/b\"\x7d, \"b\": \x7b\"x\": 1\x7d\x7d"

/-- File content: the same document as YAML, which `JSON.parse` rejects. -/
def scenarioYaml : String :=
  "a:\n  $ref: '#/b'\nb:\n  x: 1\n"

/-- File content: the unresolved-reference scenario of section 8. -/
def danglingJson : String :=
  "\x7b\"a\": \x7b\"$ref\": \"#/missing\"\x7d\x7d"

/-- File content that is neither JSON nor YAML. -/
def malformedText : String :=
  "\x7b\"a\": ["

/-- The document of `scenarioJson` and `scenarioYaml`. -/
def scenarioDocument : DocumentTree :=
  .mapping [("a", .link ⟨[.key "b"]⟩), ("b", .mapping [("x", .scalar (.number 1))])]

/-- The dereferenced `scenarioDocument` (section 8). -/
def scenarioSchema : DocumentTree :=
  .mapping [("a", .mapping [("x", .scalar (.number 1))]),
            ("b", .mapping [("x", .scalar (.number 1))])]

/-- The document of `danglingJson`. -/
def danglingDocument : DocumentTree :=
  .mapping [("a", .link ⟨[.key "missing"]⟩)]

/-- A file system with four files. -/
def sampleReadFile (specPath : String) : Except ToolError String :=
  if specPath = "spec.json" then .ok scenarioJson
  else if specPath = "spec.yaml" then .ok scenarioYaml
  else if specPath = "dangling.json" then .ok danglingJson
  else if specPath = "broken.txt" then .ok malformedText
  else .error (.unreadable specPath)

/-- The JSON parser on the sample files. -/
def sampleJsonParse (raw : String) : Except ToolError DocumentTree :=
  if raw = scenarioJson then .ok scenarioDocument
  else if raw = danglingJson then .ok danglingDocument
  else .error (.malformedInput "JSON")

/-- The YAML parser on the sample files (JSON text is YAML text too). -/
def sampleYamlLoad (raw : String) : Except ToolError DocumentTree :=
  if raw = scenarioYaml then .ok scenarioDocument
  else if raw = scenarioJson then .ok scenarioDocument
  else if raw = danglingJson then .ok danglingDocument
  else .error (.malformedInput "YAML")

/-- What the reporting dereference call returns: the schema, and next to it
the list of the References it could not resolve.  An unresolved Reference
stays in the schema as it is. -/
def reportingResult : DocumentTree → DerefResult DocumentTree (List ToolError)
  | .mapping [("a", .link ⟨[.key "b"]⟩), ("b", target)] =>
    ⟨.mapping [("a", target), ("b", target)], []⟩
  | .mapping [("a", .link ⟨[.key "missing"]⟩)] =>
    ⟨danglingDocument, [.unresolvedReference [.key "missing"]]⟩
  | root => ⟨root, []⟩

/-- A dereference call that never fails: what it cannot resolve it lists in
the `errors` of its result, next to the schema. -/
def reportingDereference (root : DocumentTree) :
    Except ToolError (DerefResult DocumentTree (List ToolError)) :=
  .ok (reportingResult root)

/-- The sample files with a dereference call that reports inside its result. -/
def reportingEnv : Env DocumentTree (List ToolError) ToolError where
  readFile := sampleReadFile
  jsonParse := sampleJsonParse
  yamlLoad := sampleYamlLoad
  dereference := reportingDereference
  stringify := fun schema space => DocumentTree.text space schema

/-- The sample environment with one more file, which the run below never
reads. -/
def otherFilesEnv : Env DocumentTree (List ToolError) ToolError :=
  { reportingEnv with
    readFile := fun specPath =>
      if specPath = "unrelated.txt" then .ok "unrelated" else sampleReadFile specPath }

/-- A dereference call that returns the document as the schema and lists no
error. -/
def silentDereference :
    DocumentTree → Except ToolError (DerefResult DocumentTree (List ToolError)) :=
  fun root => .ok ⟨root, []⟩

/-- The command line `node deref.js specPath`. -/
def commandLine (specPath : String) : List String :=
  ["node", "deref.js", specPath]

/-! ## Theorems about the script -/

/-- C1: when the argument list is not empty and reading the file `args[0]`,
parsing its text (as JSON, or as YAML when the JSON parse fails) and
dereferencing the parsed document all succeed, standard output receives exactly
one item, `stringify(schema, null, 2)` for the `schema` of the dereference
result, standard error receives nothing, and the exit code is 0. -/
theorem main_success (env : Env Val Rest Err) (argv : List String) (specPath : String)
    (rest : List String) (raw : String) (specification : Val)
    (result : DerefResult Val Rest)
    (hargs : argv.drop 2 = specPath :: rest)
    (hread : env.readFile specPath = .ok raw)
    (hparse : env.jsonParse raw = .ok specification ∨
      ((∃ jsonErr, env.jsonParse raw = .error jsonErr) ∧
        env.yamlLoad raw = .ok specification))
    (hderef : env.dereference specification = .ok result) :
    (main env argv).stdout = [env.stringify result.schema 2] ∧
      (main env argv).stderr = [] ∧ (main env argv).exitCode = 0 := by
  rcases hparse with hjson | ⟨⟨jsonErr, hjson⟩, hyaml⟩ <;>
    simp [main, run, tryBlock, parseSpecification, dereferenceAndPrint, hargs, hread,
      hjson, hderef, Outcome.stdout, Outcome.stderr, Event.stdoutItem, Event.stderrItem, *]

/-- Witness of C1: `node deref.js spec.json` on the sample files prints the
dereferenced scenario document and ends with exit code 0. -/
theorem main_success_witness :
    (main reportingEnv (commandLine "spec.json")).stdout
        = [reportingEnv.stringify scenarioSchema 2] ∧
      (main reportingEnv (commandLine "spec.json")).stderr = [] ∧
      (main reportingEnv (commandLine "spec.json")).exitCode = 0 :=
  main_success reportingEnv (commandLine "spec.json") "spec.json" [] scenarioJson
    scenarioDocument ⟨scenarioSchema, []⟩ rfl rfl (Or.inl rfl) rfl

/-- C2: with a file path argument, if the file read fails, or both the JSON
and the YAML parser reject the text, or the dereference call fails, then the
error of that step (for the parsers: the error of the YAML parser, the last one
tried) is printed to standard error and the exit code is 1. -/
theorem main_failure (env : Env Val Rest Err) (argv : List String) (specPath : String)
    (rest : List String) (err : Err)
    (hargs : argv.drop 2 = specPath :: rest)
    (hfail : env.readFile specPath = .error err ∨
      (∃ raw, env.readFile specPath = .ok raw ∧
        (∃ jsonErr, env.jsonParse raw = .error jsonErr) ∧ env.yamlLoad raw = .error err) ∨
      (∃ raw specification, env.readFile specPath = .ok raw ∧
        (env.jsonParse raw = .ok specification ∨
          ((∃ jsonErr, env.jsonParse raw = .error jsonErr) ∧
            env.yamlLoad raw = .ok specification)) ∧
        env.dereference specification = .error err)) :
    (main env argv).stderr = [err] ∧ (main env argv).exitCode = 1 := by
  rcases hfail with hread | ⟨raw, hread, ⟨jsonErr, hjson⟩, hyaml⟩ |
      ⟨raw, specification, hread, hparse, hderef⟩
  · simp [main, run, tryBlock, hargs, hread, Outcome.stderr, Event.stderrItem]
  · simp [main, run, tryBlock, parseSpecification, hargs, hread, hjson, hyaml,
      Outcome.stderr, Event.stderrItem]
  · rcases hparse with hjson | ⟨⟨jsonErr, hjson⟩, hyaml⟩ <;>
      simp [main, run, tryBlock, parseSpecification, dereferenceAndPrint, hargs, hread,
        hjson, hderef, Outcome.stderr, Event.stderrItem, *]

/-- Witness of C2: `broken.txt` is rejected by both parsers; the error of the
YAML parser is printed and the exit code is 1. -/
theorem main_failure_witness :
    (main reportingEnv (commandLine "broken.txt")).stderr = [.malformedInput "YAML"] ∧
      (main reportingEnv (commandLine "broken.txt")).exitCode = 1 :=
  main_failure reportingEnv (commandLine "broken.txt") "broken.txt" []
    (.malformedInput "YAML") rfl
    (Or.inr (Or.inl ⟨malformedText, rfl, ⟨.malformedInput "JSON", rfl⟩, rfl⟩))

/-- C3 as stated fails: without a positional argument the run ends with exit
code 1 and standard error has received nothing. -/
theorem main_no_argument_silent :
    (main reportingEnv ["node", "deref.js"]).exitCode = 1 ∧
      ¬ ∃ err, err ∈ (main reportingEnv ["node", "deref.js"]).stderr := by
  refine ⟨rfl, ?_⟩
  rintro ⟨err, herr⟩
  simp [main, run, Outcome.stderr, Event.stderrItem] at herr

/-- C3, amended: with an empty argument list the only effect of the run is
`process.exit(1)`: the exit code is 1, no file is read, and neither standard
output nor standard error receives anything. -/
theorem main_no_argument (env : Env Val Rest Err) (argv : List String)
    (hargs : argv.drop 2 = []) :
    (main env argv).trace = [.processExit 1] ∧ (main env argv).exitCode = 1 ∧
      (main env argv).reads = [] ∧ (main env argv).stdout = [] ∧
      (main env argv).stderr = [] := by
  simp [main, run, hargs, Outcome.reads, Outcome.stdout, Outcome.stderr, Event.readPath,
    Event.stdoutItem, Event.stderrItem]

/-- Witness of the amended C3: `node deref.js` on the sample files. -/
theorem main_no_argument_witness :
    (main reportingEnv ["node", "deref.js"]).trace = [.processExit 1] ∧
      (main reportingEnv ["node", "deref.js"]).exitCode = 1 ∧
      (main reportingEnv ["node", "deref.js"]).reads = [] ∧
      (main reportingEnv ["node", "deref.js"]).stdout = [] ∧
      (main reportingEnv ["node", "deref.js"]).stderr = [] :=
  main_no_argument reportingEnv ["node", "deref.js"] rfl

/-- C4 as stated fails: `dangling.json` holds `{"a": {"$ref": "#/missing"}}`,
whose Reference points to a path that does not exist.  With a dereference call
that reports the unresolved Reference inside its result, the run prints the
schema to standard output, prints nothing to standard error and ends with exit
code 0. -/
theorem main_dangling_reported :
    danglingDocument.dangling [.key "missing"] = true ∧
      reportingEnv.readFile "dangling.json" = .ok danglingJson ∧
      reportingEnv.jsonParse danglingJson = .ok danglingDocument ∧
      (reportingEnv.dereference danglingDocument).map DerefResult.rest
        = .ok [.unresolvedReference [.key "missing"]] ∧
      (main reportingEnv (commandLine "dangling.json")).stdout
        = ["\x7b\n  \"a\": \x7b\n    \"$ref\": \"#/missing\"\n  \x7d\n\x7d"] ∧
      (main reportingEnv (commandLine "dangling.json")).stderr = [] ∧
      (main reportingEnv (commandLine "dangling.json")).exitCode = 0 := by
  exact ⟨rfl, rfl, rfl, rfl, rfl, rfl, rfl⟩

/-- C4, amended: the dereference call returns on a document with a Reference
to a path that does not exist (it reports the unresolved Reference inside its
result).  Then a run on such a document prints exactly one item to standard
output, `stringify(schema, null, 2)` for the schema the call returned, prints
nothing to standard error and ends with exit code 0. -/
theorem main_dangling_printed (env : Env DocumentTree Rest Err) (argv : List String)
    (specPath : String) (rest : List String) (raw : String) (root : DocumentTree)
    (target : PointerPath)
    (hreturns : ∀ document : DocumentTree,
      (∃ missing, document.dangling missing = true) →
        ∃ result, env.dereference document = .ok result)
    (hargs : argv.drop 2 = specPath :: rest)
    (hread : env.readFile specPath = .ok raw)
    (hparse : env.jsonParse raw = .ok root ∨
      ((∃ jsonErr, env.jsonParse raw = .error jsonErr) ∧ env.yamlLoad raw = .ok root))
    (hdangling : root.dangling target = true) :
    ∃ result, env.dereference root = .ok result ∧
      (main env argv).stdout = [env.stringify result.schema 2] ∧
      (main env argv).stderr = [] ∧ (main env argv).exitCode = 0 := by
  obtain ⟨result, hderef⟩ := hreturns root ⟨target, hdangling⟩
  refine ⟨result, hderef, ?_⟩
  rcases hparse with hjson | ⟨⟨jsonErr, hjson⟩, hyaml⟩ <;>
    simp [main, run, tryBlock, parseSpecification, dereferenceAndPrint, hargs, hread,
      hjson, hderef, Outcome.stdout, Outcome.stderr, Event.stdoutItem, Event.stderrItem, *]

/-- Witness of the amended C4: `dangling.json` holds
`{"a": {"$ref": "#/missing"}}`; the run prints the schema and ends with exit
code 0. -/
theorem main_dangling_printed_witness :
    ∃ result, reportingEnv.dereference danglingDocument = .ok result ∧
      (main reportingEnv (commandLine "dangling.json")).stdout
        = [reportingEnv.stringify result.schema 2] ∧
      (main reportingEnv (commandLine "dangling.json")).stderr = [] ∧
      (main reportingEnv (commandLine "dangling.json")).exitCode = 0 :=
  main_dangling_printed reportingEnv (commandLine "dangling.json") "dangling.json" []
    danglingJson danglingDocument [.key "missing"]
    (fun document _ => ⟨reportingResult document, rfl⟩) rfl rfl (Or.inl rfl) rfl

/-- C5: format detection is JSON first, then YAML.  For a file whose text is
`raw`: if `JSON.parse` accepts `raw`, its result is the parsed document and
the YAML parser is not called in the whole run; if `JSON.parse` rejects `raw`,
the parsed document is whatever `yaml.load` makes of the same `raw`; and
parsing fails exactly when both parsers reject `raw`, in which case the run
ends with exit code 1 and the error of the YAML parser on standard error. -/
theorem parse_json_then_yaml (env : Env Val Rest Err) (argv : List String)
    (specPath : String) (rest : List String) (raw : String)
    (hargs : argv.drop 2 = specPath :: rest)
    (hread : env.readFile specPath = .ok raw) :
    (∀ specification, env.jsonParse raw = .ok specification →
        (parseSpecification env raw).2 = .ok specification ∧
          (main env argv).yamlInputs = []) ∧
      (∀ jsonErr, env.jsonParse raw = .error jsonErr →
        (parseSpecification env raw).2 = env.yamlLoad raw ∧
          (main env argv).yamlInputs = [raw]) ∧
      ((∃ err, (parseSpecification env raw).2 = .error err) ↔
        ((∃ jsonErr, env.jsonParse raw = .error jsonErr) ∧
          ∃ yamlErr, env.yamlLoad raw = .error yamlErr)) ∧
      (∀ jsonErr yamlErr, env.jsonParse raw = .error jsonErr →
        env.yamlLoad raw = .error yamlErr →
        (main env argv).stderr = [yamlErr] ∧ (main env argv).exitCode = 1) := by
  refine ⟨?_, ?_, ?_, ?_⟩
  · intro specification hjson
    cases hderef : env.dereference specification <;>
      simp [main, run, tryBlock, parseSpecification, dereferenceAndPrint, hargs, hread,
        hjson, hderef, Outcome.yamlInputs, Event.yamlInput]
  · intro jsonErr hjson
    refine ⟨by simp [parseSpecification, hjson], ?_⟩
    cases hyaml : env.yamlLoad raw with
    | error yamlErr =>
      simp [main, run, tryBlock, parseSpecification, hargs, hread, hjson, hyaml,
        Outcome.yamlInputs, Event.yamlInput]
    | ok specification =>
      cases hderef : env.dereference specification <;>
        simp [main, run, tryBlock, parseSpecification, dereferenceAndPrint, hargs, hread,
          hjson, hyaml, hderef, Outcome.yamlInputs, Event.yamlInput]
  · cases hjson : env.jsonParse raw <;> simp [parseSpecification, hjson]
  · intro jsonErr yamlErr hjson hyaml
    simp [main, run, tryBlock, parseSpecification, hargs, hread, hjson, hyaml,
      Outcome.stderr, Event.stderrItem]

/-- Witness of C5: `spec.yaml` is rejected by `JSON.parse` and read by the
YAML parser. -/
theorem parse_json_then_yaml_witness :
    (parseSpecification reportingEnv scenarioYaml).2 = reportingEnv.yamlLoad scenarioYaml ∧
      (main reportingEnv (commandLine "spec.yaml")).yamlInputs = [scenarioYaml] :=
  (parse_json_then_yaml reportingEnv (commandLine "spec.yaml") "spec.yaml" []
    scenarioYaml rfl rfl).2.1 (.malformedInput "JSON") rfl

/-- C6: no partial output.  A run that ends with exit code 1 has written
nothing to standard output and at most one error to standard error; and a run
that has written to standard output has read the file, parsed it and
dereferenced it successfully before, the write being its last effect. -/
theorem no_partial_output (env : Env Val Rest Err) (argv : List String) :
    ((main env argv).exitCode = 1 →
        (main env argv).stdout = [] ∧ (main env argv).stderr.length ≤ 1) ∧
      ((main env argv).stdout ≠ [] →
        ∃ specPath rest raw specification result,
          argv.drop 2 = specPath :: rest ∧
          env.readFile specPath = .ok raw ∧
          (parseSpecification env raw).2 = .ok specification ∧
          env.dereference specification = .ok result ∧
          (main env argv).trace
            = .readFile specPath :: ((parseSpecification env raw).1 ++
                [.dereference specification, .stringify result.schema 2,
                  .consoleLog (env.stringify result.schema 2)])) := by
  cases hargs : argv.drop 2 with
  | nil =>
    simp [main, run, hargs, Outcome.stdout, Outcome.stderr, Event.stdoutItem,
      Event.stderrItem]
  | cons specPath rest =>
    cases hread : env.readFile specPath with
    | error err =>
      simp [main, run, tryBlock, hargs, hread, Outcome.stdout, Outcome.stderr,
        Event.stdoutItem, Event.stderrItem]
    | ok raw =>
      cases hjson : env.jsonParse raw with
      | ok specification =>
        cases hderef : env.dereference specification <;>
          simp [main, run, tryBlock, parseSpecification, dereferenceAndPrint, hargs,
            hread, hjson, hderef, Outcome.stdout, Outcome.stderr, Event.stdoutItem,
            Event.stderrItem]
      | error jsonErr =>
        cases hyaml : env.yamlLoad raw with
        | error yamlErr =>
          simp [main, run, tryBlock, parseSpecification, hargs, hread, hjson, hyaml,
            Outcome.stdout, Outcome.stderr, Event.stdoutItem, Event.stderrItem]
        | ok specification =>
          cases hderef : env.dereference specification <;>
            simp [main, run, tryBlock, parseSpecification, dereferenceAndPrint, hargs,
              hread, hjson, hyaml, hderef, Outcome.stdout, Outcome.stderr,
              Event.stdoutItem, Event.stderrItem]

/-- C8: determinism.  The run is a function of the first argument and of what
reading the file it names gives: two runs with the same collaborating
libraries whose argument lists have the same first argument (or are both
empty) and whose file systems agree on that one file have the same effects, in
the same order, and the same exit code; so standard output, standard error and
exit code agree.  Further arguments and other files do not matter. -/
theorem main_deterministic (env env2 : Env Val Rest Err) (argv argv2 : List String)
    (hjson : env.jsonParse = env2.jsonParse)
    (hyaml : env.yamlLoad = env2.yamlLoad)
    (hderef : env.dereference = env2.dereference)
    (hstringify : env.stringify = env2.stringify)
    (hfirst : (argv.drop 2).head? = (argv2.drop 2).head?)
    (hfile : ∀ specPath, (argv.drop 2).head? = some specPath →
      env.readFile specPath = env2.readFile specPath) :
    main env argv = main env2 argv2 ∧
      (main env argv).stdout = (main env2 argv2).stdout ∧
      (main env argv).stderr = (main env2 argv2).stderr ∧
      (main env argv).exitCode = (main env2 argv2).exitCode := by
  have key : main env argv = main env2 argv2 := by
    cases hargs : argv.drop 2 with
    | nil =>
      cases hargs2 : argv2.drop 2 with
      | nil => simp [main, run, hargs, hargs2]
      | cons specPath2 rest2 => simp [hargs, hargs2] at hfirst
    | cons specPath rest =>
      cases hargs2 : argv2.drop 2 with
      | nil => simp [hargs, hargs2] at hfirst
      | cons specPath2 rest2 =>
        simp only [hargs, hargs2, List.head?_cons, Option.some.injEq] at hfirst
        subst hfirst
        have hsame := hfile specPath (by simp [hargs])
        simp [main, run, tryBlock, parseSpecification, dereferenceAndPrint, hargs,
          hargs2, hsame, hjson, hyaml, hderef, hstringify]
  exact ⟨key, by rw [key], by rw [key], by rw [key]⟩

/-- Witness of C8: a second argument and a changed unrelated file leave the
run on `spec.json` as it is. -/
theorem main_deterministic_witness :
    main reportingEnv ["node", "deref.js", "spec.json"]
        = main otherFilesEnv ["node", "deref.js", "spec.json", "--verbose"] ∧
      (main reportingEnv ["node", "deref.js", "spec.json"]).stdout
        = (main otherFilesEnv ["node", "deref.js", "spec.json", "--verbose"]).stdout ∧
      (main reportingEnv ["node", "deref.js", "spec.json"]).stderr
        = (main otherFilesEnv ["node", "deref.js", "spec.json", "--verbose"]).stderr ∧
      (main reportingEnv ["node", "deref.js", "spec.json"]).exitCode
        = (main otherFilesEnv ["node", "deref.js", "spec.json", "--verbose"]).exitCode :=
  main_deterministic reportingEnv otherFilesEnv ["node", "deref.js", "spec.json"]
    ["node", "deref.js", "spec.json", "--verbose"] rfl rfl rfl rfl rfl
    (fun specPath hfirst => by
      have hpath : specPath = "spec.json" := by simpa using hfirst.symm
      subst hpath
      rfl)

/-- C9: format agnosticism.  When the text `t1` parses as JSON to the document
`d`, and the text `t2` is rejected by `JSON.parse` but read by the YAML parser
as the same `d`, the two runs print the same to standard output and to
standard error and end with the same exit code; they perform the same effects
after parsing, whatever `d` makes the dereference call do. -/
theorem format_agnostic (env : Env Val Rest Err) (argv1 argv2 : List String)
    (specPath1 specPath2 : String) (rest1 rest2 : List String) (t1 t2 : String)
    (d : Val) (jsonErr : Err)
    (hargs1 : argv1.drop 2 = specPath1 :: rest1)
    (hargs2 : argv2.drop 2 = specPath2 :: rest2)
    (hread1 : env.readFile specPath1 = .ok t1)
    (hread2 : env.readFile specPath2 = .ok t2)
    (hjson1 : env.jsonParse t1 = .ok d)
    (hjson2 : env.jsonParse t2 = .error jsonErr)
    (hyaml2 : env.yamlLoad t2 = .ok d) :
    (main env argv1).stdout = (main env argv2).stdout ∧
      (main env argv1).stderr = (main env argv2).stderr ∧
      (main env argv1).exitCode = (main env argv2).exitCode ∧
      ∃ afterParsing,
        (main env argv1).trace
          = .readFile specPath1 :: .jsonParse t1 :: afterParsing ∧
        (main env argv2).trace
          = .readFile specPath2 :: .jsonParse t2 :: .yamlLoad t2 :: afterParsing := by
  cases hderef : env.dereference d <;>
    simp [main, run, tryBlock, parseSpecification, dereferenceAndPrint, hargs1, hargs2,
      hread1, hread2, hjson1, hjson2, hyaml2, hderef, Outcome.stdout, Outcome.stderr,
      Event.stdoutItem, Event.stderrItem]

/-- Witness of C9: `spec.json` and `spec.yaml` hold the same document. -/
theorem format_agnostic_witness :
    (main reportingEnv (commandLine "spec.json")).stdout
        = (main reportingEnv (commandLine "spec.yaml")).stdout ∧
      (main reportingEnv (commandLine "spec.json")).stderr
        = (main reportingEnv (commandLine "spec.yaml")).stderr ∧
      (main reportingEnv (commandLine "spec.json")).exitCode
        = (main reportingEnv (commandLine "spec.yaml")).exitCode ∧
      ∃ afterParsing,
        (main reportingEnv (commandLine "spec.json")).trace
          = .readFile "spec.json" :: .jsonParse scenarioJson :: afterParsing ∧
        (main reportingEnv (commandLine "spec.yaml")).trace
          = .readFile "spec.yaml" :: .jsonParse scenarioYaml :: .yamlLoad scenarioYaml
              :: afterParsing :=
  format_agnostic reportingEnv (commandLine "spec.json") (commandLine "spec.yaml")
    "spec.json" "spec.yaml" [] [] scenarioJson scenarioYaml scenarioDocument
    (.malformedInput "JSON") rfl rfl rfl rfl rfl rfl rfl

/-- C10: only the `schema` of the dereference result matters.  Two runs on the
same file that differ in what the dereference call returns, the two results
having the same `schema` and any other properties (such as listed errors),
print the same one text to standard output, print nothing to standard error
and end with exit code 0. -/
theorem only_schema_matters (env : Env Val Rest Err)
    (dereference2 : Val → Except Err (DerefResult Val Rest)) (argv : List String)
    (specPath : String) (rest : List String) (raw : String) (specification : Val)
    (result result2 : DerefResult Val Rest)
    (hargs : argv.drop 2 = specPath :: rest)
    (hread : env.readFile specPath = .ok raw)
    (hparse : env.jsonParse raw = .ok specification ∨
      ((∃ jsonErr, env.jsonParse raw = .error jsonErr) ∧
        env.yamlLoad raw = .ok specification))
    (hderef : env.dereference specification = .ok result)
    (hderef2 : dereference2 specification = .ok result2)
    (hschema : result.schema = result2.schema) :
    main env argv = main (env.withDereference dereference2) argv ∧
      (main env argv).stdout = [env.stringify result.schema 2] ∧
      (main (env.withDereference dereference2) argv).stdout
        = [env.stringify result.schema 2] ∧
      (main env argv).stderr = [] ∧
      (main (env.withDereference dereference2) argv).stderr = [] ∧
      (main env argv).exitCode = 0 ∧
      (main (env.withDereference dereference2) argv).exitCode = 0 := by
  rcases hparse with hjson | ⟨⟨jsonErr, hjson⟩, hyaml⟩ <;>
    simp [main, run, tryBlock, parseSpecification, dereferenceAndPrint, hargs, hread,
      hjson, hderef, hderef2, hschema, Env.withDereference, Outcome.stdout, Outcome.stderr, Event.stdoutItem,
      Event.stderrItem, *]

/-- Witness of C10: on `dangling.json` the reporting dereference call returns
the schema with one listed error; a call returning the same schema and no
listed error gives the same run. -/
theorem only_schema_matters_witness :
    main reportingEnv (commandLine "dangling.json")
        = main (reportingEnv.withDereference silentDereference)
            (commandLine "dangling.json") ∧
      (main reportingEnv (commandLine "dangling.json")).stdout
        = [reportingEnv.stringify danglingDocument 2] ∧
      (main (reportingEnv.withDereference silentDereference)
          (commandLine "dangling.json")).stdout
        = [reportingEnv.stringify danglingDocument 2] ∧
      (main reportingEnv (commandLine "dangling.json")).stderr = [] ∧
      (main (reportingEnv.withDereference silentDereference)
          (commandLine "dangling.json")).stderr = [] ∧
      (main reportingEnv (commandLine "dangling.json")).exitCode = 0 ∧
      (main (reportingEnv.withDereference silentDereference)
          (commandLine "dangling.json")).exitCode = 0 :=
  only_schema_matters reportingEnv silentDereference
    (commandLine "dangling.json") "dangling.json" [] danglingJson danglingDocument
    ⟨danglingDocument, [.unresolvedReference [.key "missing"]]⟩ ⟨danglingDocument, []⟩
    rfl rfl (Or.inl rfl) rfl rfl rfl

end AutoDoc
